import Mathlib

/-!
Verification of the NFC Contact Manager backend (src/backend/server.py).

The development shallowly embeds the one piece of real logic of the
service — the contact-to-vCard/NDEF derivation (`generate_ndef_record`)
and the size-validated CRUD handlers — as pure Lean functions.  Strings
are Lean `String`s (sequences of unicode scalar values, matching Python
`str`), bytes are `Nat`s below 256, the Mongo collection is a list of
documents with explicit state passing, and HTTP exceptions become an
`Except` result carrying the status code.
-/

namespace NfcServer

/-! ### UTF-8 encoding (model of Python `str.encode('utf-8')`) -/

/-- The UTF-8 encoding of a single unicode scalar value, as a list of
byte values.  Mirrors the standard 1–4 byte UTF-8 scheme used by
Python's `str.encode('utf-8')`. -/
def utf8Char (c : Char) : List Nat :=
  if c.toNat < 0x80 then [c.toNat]
  else if c.toNat < 0x800 then [0xC0 + c.toNat / 64, 0x80 + c.toNat % 64]
  else if c.toNat < 0x10000 then
    [0xE0 + c.toNat / 4096, 0x80 + (c.toNat / 64) % 64, 0x80 + c.toNat % 64]
  else
    [0xF0 + c.toNat / 262144, 0x80 + (c.toNat / 4096) % 64,
     0x80 + (c.toNat / 64) % 64, 0x80 + c.toNat % 64]

/-- UTF-8 encoding of a whole string: concatenation of the per-character
encodings, i.e. the byte sequence `s.encode('utf-8')`. -/
def utf8Encode (s : String) : List Nat :=
  (s.data.map utf8Char).flatten

theorem utf8Encode_append (s t : String) :
    utf8Encode (s ++ t) = utf8Encode s ++ utf8Encode t := by
  simp [utf8Encode, String.data_append]

/-- A unicode scalar value is below 0x110000. -/
theorem char_toNat_lt (c : Char) : c.toNat < 0x110000 := by
  have h := c.valid
  rcases h with h | h
  · exact lt_trans h (by norm_num)
  · exact h.2

theorem utf8Char_bytes_lt (c : Char) : ∀ b ∈ utf8Char c, b < 256 := by
  intro b hb
  have hval : c.toNat < 0x110000 := char_toNat_lt c
  unfold utf8Char at hb
  split at hb
  · simp at hb; omega
  · split at hb
    · have h1 : c.toNat / 64 < 32 := by omega
      have h2 : c.toNat % 64 < 64 := Nat.mod_lt _ (by norm_num)
      simp at hb
      rcases hb with hb | hb <;> omega
    · split at hb
      · have h1 : c.toNat / 4096 < 16 := by omega
        have h2 : (c.toNat / 64) % 64 < 64 := Nat.mod_lt _ (by norm_num)
        have h3 : c.toNat % 64 < 64 := Nat.mod_lt _ (by norm_num)
        simp at hb
        rcases hb with hb | hb | hb <;> omega
      · have h1 : c.toNat / 262144 < 5 := by omega
        have h2 : (c.toNat / 4096) % 64 < 64 := Nat.mod_lt _ (by norm_num)
        have h3 : (c.toNat / 64) % 64 < 64 := Nat.mod_lt _ (by norm_num)
        have h4 : c.toNat % 64 < 64 := Nat.mod_lt _ (by norm_num)
        simp at hb
        rcases hb with hb | hb | hb | hb <;> omega

theorem utf8Encode_bytes_lt (s : String) : ∀ b ∈ utf8Encode s, b < 256 := by
  intro b hb
  simp only [utf8Encode, List.mem_flatten, List.mem_map] at hb
  obtain ⟨l, ⟨c, _, rfl⟩, hbl⟩ := hb
  exact utf8Char_bytes_lt c b hbl

/-- An ASCII character encodes to exactly one byte. -/
theorem utf8Char_ascii (c : Char) (h : c.toNat < 128) : utf8Char c = [c.toNat] := by
  simp [utf8Char, h]

theorem utf8Char_length_pos (c : Char) : 1 ≤ (utf8Char c).length := by
  unfold utf8Char
  split
  · simp
  · split
    · simp
    · split <;> simp

theorem utf8Char_length_ge_two (c : Char) (h : 128 ≤ c.toNat) :
    2 ≤ (utf8Char c).length := by
  unfold utf8Char
  split
  · omega
  · split
    · simp
    · split <;> simp

theorem utf8_list_length_ascii (l : List Char) (h : ∀ c ∈ l, c.toNat < 128) :
    (l.map utf8Char).flatten.length = l.length := by
  induction l with
  | nil => simp
  | cons c cs ih =>
    have hc : c.toNat < 128 := h c (by simp)
    simp only [List.map_cons, List.flatten_cons, List.length_append, List.length_cons,
      utf8Char_ascii c hc, List.length_cons, List.length_nil]
    rw [ih (fun x hx => h x (by simp [hx]))]
    omega

/-- On an all-ASCII string the UTF-8 byte length equals the character
count. -/
theorem utf8Encode_length_ascii (s : String) (h : ∀ c ∈ s.data, c.toNat < 128) :
    (utf8Encode s).length = s.length :=
  utf8_list_length_ascii s.data h

/-! ### Base64 (model of Python `base64.b64encode` / `base64.b64decode`) -/

/-- The standard base64 alphabet, as the list of its 64 characters. -/
def b64Alphabet : List Char :=
  "ABCDEFGHIJKLMNOPQRSTUVWXYZabcdefghijklmnopqrstuvwxyz0123456789+/".data

/-- The base64 digit for a 6-bit value. -/
def b64Digit (n : Nat) : Char := b64Alphabet.getD n 'A'

/-- The 6-bit value of a base64 digit, if it is one. -/
def b64Value (c : Char) : Option Nat := b64Alphabet.indexOf? c

/-- Standard base64 encoding of a byte sequence, with `=` padding,
as performed by Python's `base64.b64encode`. -/
def b64encode : List Nat → List Char
  | [] => []
  | [a] => [b64Digit (a / 4), b64Digit (a % 4 * 16), '=', '=']
  | [a, b] => [b64Digit (a / 4), b64Digit (a % 4 * 16 + b / 16), b64Digit (b % 16 * 4), '=']
  | a :: b :: c :: rest =>
      b64Digit (a / 4) :: b64Digit (a % 4 * 16 + b / 16) ::
      b64Digit (b % 16 * 4 + c / 64) :: b64Digit (c % 64) :: b64encode rest

/-- Standard base64 decoding, the inverse of `b64encode`; `none` on
malformed input. -/
def b64decode : List Char → Option (List Nat)
  | [] => some []
  | c0 :: c1 :: c2 :: c3 :: rest =>
      match b64Value c0, b64Value c1 with
      | some s0, some s1 =>
          if c2 = '=' then
            if c3 = '=' ∧ rest = [] then some [s0 * 4 + s1 / 16] else none
          else
            match b64Value c2 with
            | some s2 =>
                if c3 = '=' then
                  if rest = [] then some [s0 * 4 + s1 / 16, s1 % 16 * 16 + s2 / 4]
                  else none
                else
                  match b64Value c3 with
                  | some s3 =>
                      (b64decode rest).map
                        (fun bs => (s0 * 4 + s1 / 16) :: (s1 % 16 * 16 + s2 / 4) ::
                                   (s2 % 4 * 64 + s3) :: bs)
                  | none => none
            | none => none
      | _, _ => none
  | _ => none

theorem b64Value_b64Digit : ∀ n < 64, b64Value (b64Digit n) = some n := by decide

theorem b64Digit_ne_pad : ∀ n < 64, b64Digit n ≠ '=' := by decide

/-- Base64 round trip: decoding an encoded byte sequence recovers it. -/
theorem b64decode_b64encode (bs : List Nat) (h : ∀ b ∈ bs, b < 256) :
    b64decode (b64encode bs) = some bs := by
  induction bs using b64encode.induct with
  | case1 => simp [b64encode, b64decode]
  | case2 a =>
    have ha : a < 256 := h a (by simp)
    simp only [b64encode, b64decode,
      b64Value_b64Digit (a / 4) (by omega),
      b64Value_b64Digit (a % 4 * 16) (by omega)]
    simp
    omega
  | case3 a b =>
    have ha : a < 256 := h a (by simp)
    have hb : b < 256 := h b (by simp)
    simp only [b64encode, b64decode,
      b64Value_b64Digit (a / 4) (by omega),
      b64Value_b64Digit (a % 4 * 16 + b / 16) (by omega),
      b64Value_b64Digit (b % 16 * 4) (by omega),
      if_neg (b64Digit_ne_pad (b % 16 * 4) (by omega))]
    simp
    omega
  | case4 a b c rest ih =>
    have ha : a < 256 := h a (by simp)
    have hb : b < 256 := h b (by simp)
    have hc : c < 256 := h c (by simp)
    have hrest : ∀ x ∈ rest, x < 256 := fun x hx => h x (by simp [hx])
    simp only [b64encode, b64decode,
      b64Value_b64Digit (a / 4) (by omega),
      b64Value_b64Digit (a % 4 * 16 + b / 16) (by omega),
      b64Value_b64Digit (b % 16 * 4 + c / 64) (by omega),
      b64Value_b64Digit (c % 64) (by omega),
      if_neg (b64Digit_ne_pad (b % 16 * 4 + c / 64) (by omega)),
      if_neg (b64Digit_ne_pad (c % 64) (by omega)),
      ih hrest]
    simp
    omega

/-! ### Python `str.strip()` -/

/-- Characters for which Python's `str.isspace()` is true (the set
stripped by `str.strip()`). -/
def pyIsSpace (c : Char) : Bool :=
  decide ((0x9 ≤ c.toNat ∧ c.toNat ≤ 0xD) ∨ (0x1C ≤ c.toNat ∧ c.toNat ≤ 0x20) ∨
    c.toNat = 0x85 ∨ c.toNat = 0xA0 ∨ c.toNat = 0x1680 ∨
    (0x2000 ≤ c.toNat ∧ c.toNat ≤ 0x200A) ∨ c.toNat = 0x2028 ∨ c.toNat = 0x2029 ∨
    c.toNat = 0x202F ∨ c.toNat = 0x205F ∨ c.toNat = 0x3000)

/-- Model of `str.strip()` at the level of character lists. -/
def pyStripL (l : List Char) : List Char :=
  ((l.dropWhile pyIsSpace).reverse.dropWhile pyIsSpace).reverse

/-- Python `str.strip()`: remove leading and trailing whitespace. -/
def pyStrip (s : String) : String :=
  String.mk (pyStripL s.data)

theorem pyStripL_of_ends (a z : Char) (m : List Char)
    (ha : pyIsSpace a = false) (hz : pyIsSpace z = false) :
    pyStripL (a :: (m ++ [z])) = a :: (m ++ [z]) := by
  simp [pyStripL, List.dropWhile_cons, ha, hz, List.reverse_append]

/-- Stripping is the identity on a string that starts and ends with a
non-whitespace character. -/
theorem pyStrip_of_ends (s : String) (a z : Char) (m : List Char)
    (hs : s.data = a :: (m ++ [z]))
    (ha : pyIsSpace a = false) (hz : pyIsSpace z = false) :
    pyStrip s = s := by
  apply String.ext
  show pyStripL s.data = s.data
  rw [hs, pyStripL_of_ends a z m ha hz]

/-! ### `generate_ndef_record` (src/backend/server.py, lines 49–68) -/

/-- The NDEF record structure returned by `generate_ndef_record`. -/
structure NdefRecord where
  type : String
  payload : String
  payload_base64 : String
  size_bytes : Nat
  deriving DecidableEq

/-- Embedding of `generate_ndef_record(phone_number, text, name="") -> dict`:
the vCard f-string (with Python-truthiness fallback of `name` to
`phone_number`) is stripped, then packaged with its base64 encoding and
UTF-8 byte length. -/
def generate_ndef_record (phone_number text name : String) : NdefRecord :=
  let vcard_data :=
    pyStrip ("BEGIN:VCARD\nVERSION:3.0\nFN:" ++
      (if name ≠ "" then name else phone_number) ++
      "\nTEL:" ++ phone_number ++ "\nNOTE:" ++ text ++ "\nEND:VCARD")
  { type := "text/vcard"
    payload := vcard_data
    payload_base64 := String.mk (b64encode (utf8Encode vcard_data))
    size_bytes := (utf8Encode vcard_data).length }

/-- The raw (unstripped) vCard block. -/
def vcardBlock (phone_number text name : String) : String :=
  "BEGIN:VCARD\nVERSION:3.0\nFN:" ++ (if name ≠ "" then name else phone_number) ++
  "\nTEL:" ++ phone_number ++ "\nNOTE:" ++ text ++ "\nEND:VCARD"

/-- The record `generate_ndef_record` builds, written out field by field. -/
theorem generate_eq_struct (phone_number text name : String) :
    generate_ndef_record phone_number text name =
      { type := "text/vcard"
        payload := pyStrip (vcardBlock phone_number text name)
        payload_base64 :=
          String.mk (b64encode (utf8Encode (pyStrip (vcardBlock phone_number text name))))
        size_bytes :=
          (utf8Encode (pyStrip (vcardBlock phone_number text name))).length } := rfl

theorem generate_payload_strip (phone_number text name : String) :
    (generate_ndef_record phone_number text name).payload =
      pyStrip (vcardBlock phone_number text name) := by
  rw [generate_eq_struct]

theorem generate_size (phone_number text name : String) :
    (generate_ndef_record phone_number text name).size_bytes =
      (utf8Encode (pyStrip (vcardBlock phone_number text name))).length := by
  rw [generate_eq_struct]

theorem generate_b64 (phone_number text name : String) :
    (generate_ndef_record phone_number text name).payload_base64 =
      String.mk (b64encode (utf8Encode (pyStrip (vcardBlock phone_number text name)))) := by
  rw [generate_eq_struct]

theorem generate_type (phone_number text name : String) :
    (generate_ndef_record phone_number text name).type = "text/vcard" := by
  rw [generate_eq_struct]

/-- The `.strip()` in `generate_ndef_record` is a no-op: the block always
starts with `B` and ends with `D`. -/
theorem pyStrip_vcardBlock (phone_number text name : String) :
    pyStrip (vcardBlock phone_number text name) =
      vcardBlock phone_number text name := by
  apply pyStrip_of_ends _ 'B' 'D'
    ("EGIN:VCARD\nVERSION:3.0\nFN:".data ++
      (if name ≠ "" then name else phone_number).data ++
      "\nTEL:".data ++ phone_number.data ++ "\nNOTE:".data ++ text.data ++
      "\nEND:VCAR".data)
  · show (vcardBlock phone_number text name).data = _
    simp only [vcardBlock, String.data_append]
    simp [List.cons_append, List.append_assoc]
  · rfl
  · rfl

/-- The payload is exactly the raw 6-line block. -/
theorem generate_payload_eq (phone_number text name : String) :
    (generate_ndef_record phone_number text name).payload =
      vcardBlock phone_number text name := by
  rw [generate_payload_strip, pyStrip_vcardBlock]

/-! ### Data model and store (src/backend/server.py, lines 24–47) -/

/-- A persisted contact document (one MongoDB document). -/
structure Doc where
  id : String
  phone_number : String
  text : String
  name : String
  created_at : Nat
  updated_at : Nat
  deriving DecidableEq

/-- The validated `Contact` request body (pydantic model). -/
structure ContactIn where
  phone_number : String
  text : String
  name : Option String
  deriving DecidableEq

/-- Python truthiness coalescing `contact.name or ""`. -/
def pyOrEmpty (n : Option String) : String :=
  match n with
  | none => ""
  | some s => if s = "" then "" else s

/-- The pydantic `Field` constraints on `Contact`: `phone_number` has
`min_length=1, max_length=20`, `text` has `max_length=100`, `name` has
`max_length=50` (checked only when provided). -/
def ContactValid (c : ContactIn) : Prop :=
  1 ≤ c.phone_number.length ∧ c.phone_number.length ≤ 20 ∧
  c.text.length ≤ 100 ∧ ∀ s, c.name = some s → s.length ≤ 50

/-- The `ContactResponse` model. -/
structure ContactResponse where
  id : String
  phone_number : String
  text : String
  name : String
  created_at : Nat
  updated_at : Nat
  ndef_data : String
  data_size : Nat
  deriving DecidableEq

/-- An `HTTPException`, reduced to its status code and detail. -/
structure HTTPError where
  status_code : Nat
  detail : String
  deriving DecidableEq

/-- The `instructions` object returned by `get_contact_ndef`. -/
structure NdefInstructions where
  nfc_215_compatible : Bool
  recommended_apps : List String
  usage : String
  deriving DecidableEq

/-- The response of `get_contact_ndef`. -/
structure NdefResponse where
  contact_id : String
  ndef_record : NdefRecord
  instructions : NdefInstructions
  deriving DecidableEq

/-- Mongo `update_one`: applies `f` to the first document matching `p`,
leaving all others untouched. -/
def updateFirst (p : Doc → Bool) (f : Doc → Doc) : List Doc → List Doc
  | [] => []
  | d :: ds => if p d then f d :: ds else d :: updateFirst p f ds

/-- Mongo `delete_one`: removes the first document matching `p` and
reports the deleted count (0 or 1). -/
def deleteOne (p : Doc → Bool) : List Doc → List Doc × Nat
  | [] => ([], 0)
  | d :: ds => if p d then (ds, 1) else
      ((deleteOne p ds).1.cons d, (deleteOne p ds).2)

/-! ### Route handlers (src/backend/server.py, lines 74–229) -/

/-- Handler for `POST /api/contacts` (`create_contact`): render the NDEF record, reject
with 400 if over 504 bytes, otherwise insert the new document and return
the response.  `contact_id` and `now` stand for the generated
`str(uuid.uuid4())` and `datetime.utcnow()`. -/
def create_contact (contact_id : String) (now : Nat) (contact : ContactIn)
    (store : List Doc) : List Doc × Except HTTPError ContactResponse :=
  let ndef := generate_ndef_record contact.phone_number contact.text
    (pyOrEmpty contact.name)
  if 504 < ndef.size_bytes then
    (store, .error ⟨400, "Data too large for NFC 215 tag. Size: " ++
      toString ndef.size_bytes ++ " bytes (max: 504 bytes)"⟩)
  else
    let doc : Doc :=
      { id := contact_id
        phone_number := contact.phone_number
        text := contact.text
        name := pyOrEmpty contact.name
        created_at := now
        updated_at := now }
    (store ++ [doc],
     .ok { id := contact_id
           phone_number := contact.phone_number
           text := contact.text
           name := pyOrEmpty contact.name
           created_at := now
           updated_at := now
           ndef_data := ndef.payload_base64
           data_size := ndef.size_bytes })

/-- Handler for `PUT /api/contacts/\x7bcontact_id\x7d` (`update_contact`): 404 when the id is
unknown, 400 when the re-rendered NDEF record is over 504 bytes, otherwise
`$set` the three editable fields plus `updated_at` on the matching
document, re-read it, and return the response. -/
def update_contact (contact_id : String) (now : Nat) (contact : ContactIn)
    (store : List Doc) : List Doc × Except HTTPError ContactResponse :=
  match store.find? (fun d => d.id == contact_id) with
  | none => (store, .error ⟨404, "Contact not found"⟩)
  | some _ =>
    let ndef := generate_ndef_record contact.phone_number contact.text
      (pyOrEmpty contact.name)
    if 504 < ndef.size_bytes then
      (store, .error ⟨400, "Data too large for NFC 215 tag. Size: " ++
        toString ndef.size_bytes ++ " bytes (max: 504 bytes)"⟩)
    else
      let store2 := updateFirst (fun d => d.id == contact_id)
        (fun d => { d with
          phone_number := contact.phone_number
          text := contact.text
          name := pyOrEmpty contact.name
          updated_at := now }) store
      match store2.find? (fun d => d.id == contact_id) with
      | some updated =>
          (store2,
           .ok { id := contact_id
                 phone_number := updated.phone_number
                 text := updated.text
                 name := updated.name
                 created_at := updated.created_at
                 updated_at := updated.updated_at
                 ndef_data := ndef.payload_base64
                 data_size := ndef.size_bytes })
      | none => (store2, .error ⟨500, "Error updating contact"⟩)

/-- Handler for `DELETE /api/contacts/\x7bcontact_id\x7d` (`delete_contact`): `delete_one`,
then 404 when nothing was deleted. -/
def delete_contact (contact_id : String) (store : List Doc) :
    List Doc × Except HTTPError String :=
  let result := deleteOne (fun d => d.id == contact_id) store
  if result.2 = 0 then (result.1, .error ⟨404, "Contact not found"⟩)
  else (result.1, .ok "Contact deleted successfully")

/-- Handler for `GET /api/contacts` (`get_contacts`): list all documents sorted by
`created_at` descending, each with its freshly rendered NDEF data. -/
def get_contacts (store : List Doc) : List ContactResponse :=
  (store.mergeSort (fun a b => b.created_at ≤ a.created_at)).map
    (fun contact =>
      let ndef := generate_ndef_record contact.phone_number contact.text
        contact.name
      { id := contact.id
        phone_number := contact.phone_number
        text := contact.text
        name := contact.name
        created_at := contact.created_at
        updated_at := contact.updated_at
        ndef_data := ndef.payload_base64
        data_size := ndef.size_bytes })

/-- Handler for `GET /api/contacts/\x7bcontact_id\x7d/ndef` (`get_contact_ndef`): 404 when
the id is unknown, otherwise the full NDEF record plus usage
instructions with the NFC-215 compatibility flag. -/
def get_contact_ndef (contact_id : String) (store : List Doc) :
    Except HTTPError NdefResponse :=
  match store.find? (fun d => d.id == contact_id) with
  | none => .error ⟨404, "Contact not found"⟩
  | some contact =>
    let ndef := generate_ndef_record contact.phone_number contact.text
      contact.name
    .ok { contact_id := contact_id
          ndef_record := ndef
          instructions :=
            { nfc_215_compatible := decide (ndef.size_bytes ≤ 504)
              recommended_apps :=
                ["NFC Tools (Android/iOS)", "TagWriter by NXP (Android/iOS)",
                 "NFC TagInfo (Android)"]
              usage := "Copy the payload data and use an NFC writing app to write to your NFC 215 tag" } }

/-! ### Store helper lemmas -/

theorem find?_decomp {α} (p : α → Bool) (l : List α) (d : α)
    (h : l.find? p = some d) :
    ∃ pre post, l = pre ++ d :: post ∧ (∀ x ∈ pre, p x = false) ∧ p d = true := by
  induction l with
  | nil => simp [List.find?] at h
  | cons x xs ih =>
    rw [List.find?_cons] at h
    rcases hx : p x with _ | _
    · rw [hx] at h
      obtain ⟨pre, post, rfl, hpre, hd⟩ := ih h
      exact ⟨x :: pre, post, rfl, by
        intro y hy
        rcases List.mem_cons.mp hy with rfl | hy
        · exact hx
        · exact hpre y hy, hd⟩
    · rw [hx] at h
      cases h
      exact ⟨[], xs, rfl, by simp, hx⟩

theorem find?_append_first {α} (p : α → Bool) (pre post : List α) (d : α)
    (hpre : ∀ x ∈ pre, p x = false) (hd : p d = true) :
    (pre ++ d :: post).find? p = some d := by
  induction pre with
  | nil => simp [List.find?_cons, hd]
  | cons x xs ih =>
    have hx : p x = false := hpre x (by simp)
    simp only [List.cons_append, List.find?_cons, hx]
    exact ih (fun y hy => hpre y (by simp [hy]))

theorem updateFirst_append (p : Doc → Bool) (f : Doc → Doc)
    (pre post : List Doc) (d : Doc)
    (hpre : ∀ x ∈ pre, p x = false) (hd : p d = true) :
    updateFirst p f (pre ++ d :: post) = pre ++ f d :: post := by
  induction pre with
  | nil => simp [updateFirst, hd]
  | cons x xs ih =>
    have hx : p x = false := hpre x (by simp)
    have hrec := ih (fun y hy => hpre y (by simp [hy]))
    simp [updateFirst, hx, hrec]

theorem deleteOne_of_none (p : Doc → Bool) (l : List Doc)
    (h : ∀ x ∈ l, p x = false) : deleteOne p l = (l, 0) := by
  induction l with
  | nil => rfl
  | cons x xs ih =>
    have hx : p x = false := h x (by simp)
    have hrec := ih (fun y hy => h y (by simp [hy]))
    simp [deleteOne, hx, hrec]

theorem deleteOne_append (p : Doc → Bool) (pre post : List Doc) (d : Doc)
    (hpre : ∀ x ∈ pre, p x = false) (hd : p d = true) :
    deleteOne p (pre ++ d :: post) = (pre ++ post, 1) := by
  induction pre with
  | nil => simp [deleteOne, hd]
  | cons x xs ih =>
    have hx : p x = false := hpre x (by simp)
    have hrec := ih (fun y hy => hpre y (by simp [hy]))
    simp [deleteOne, hx, hrec]

/-! ### Byte-length comparison lemmas -/

theorem utf8_list_length_ge (l : List Char) :
    l.length ≤ (l.map utf8Char).flatten.length := by
  induction l with
  | nil => simp
  | cons c cs ih =>
    simp only [List.map_cons, List.flatten_cons, List.length_append, List.length_cons]
    have := utf8Char_length_pos c
    omega

theorem utf8_list_length_gt (l : List Char) (c : Char) (hc : c ∈ l)
    (hge : 128 ≤ c.toNat) : l.length < (l.map utf8Char).flatten.length := by
  induction l with
  | nil => simp at hc
  | cons x xs ih =>
    simp only [List.map_cons, List.flatten_cons, List.length_append, List.length_cons]
    rcases List.mem_cons.mp hc with rfl | hmem
    · have h2 := utf8Char_length_ge_two c hge
      have h3 := utf8_list_length_ge xs
      omega
    · have h2 := ih hmem
      have h3 := utf8Char_length_pos x
      omega

/-! ### Claims -/

/-- C1: `generate_ndef_record` returns as its payload exactly the 6-line
vCard block in fixed order with literal field tags, the `FN` field being
`name` when non-empty and `phoneNumber` otherwise, all fields passed
through verbatim; in particular the documented concrete example renders
exactly as stated. -/
theorem C1_vcard_payload :
    (∀ phoneNumber text name : String,
      (generate_ndef_record phoneNumber text name).payload =
        "BEGIN:VCARD\nVERSION:3.0\nFN:" ++
        (if name = "" then phoneNumber else name) ++
        "\nTEL:" ++ phoneNumber ++ "\nNOTE:" ++ text ++ "\nEND:VCARD") ∧
    (generate_ndef_record "+49 123 456789" "Test" "Test Kontakt").payload =
      "BEGIN:VCARD\nVERSION:3.0\nFN:Test Kontakt\nTEL:+49 123 456789\nNOTE:Test\nEND:VCARD" := by
  constructor
  · intro p t n
    rw [generate_payload_eq]
    unfold vcardBlock
    by_cases h : n = "" <;> simp [h]
  · rw [generate_payload_eq]
    apply String.ext
    simp [vcardBlock, String.data_append]

/-- C3: the reported `size_bytes` always equals the UTF-8 byte length of
the payload, and whenever any input field contains a character outside
ASCII (so multi-byte in UTF-8) the reported size strictly exceeds the
payload's character count. -/
theorem C3_size_is_utf8_byte_length :
    (∀ p t n : String,
      (generate_ndef_record p t n).size_bytes =
        (utf8Encode (generate_ndef_record p t n).payload).length) ∧
    (∀ p t n : String,
      (∃ c, (c ∈ p.data ∨ c ∈ t.data ∨ c ∈ n.data) ∧ 128 ≤ c.toNat) →
      (generate_ndef_record p t n).payload.length <
        (generate_ndef_record p t n).size_bytes) := by
  constructor
  · intro p t n
    rw [generate_size, generate_payload_strip]
  · rintro p t n ⟨c, hmem, hge⟩
    rw [generate_size, generate_payload_eq, pyStrip_vcardBlock]
    have hc : c ∈ (vcardBlock p t n).data := by
      rcases hmem with h | h | h
      · simp only [vcardBlock, String.data_append, List.mem_append]
        tauto
      · simp only [vcardBlock, String.data_append, List.mem_append]
        tauto
      · have hn : n ≠ "" := by
          intro he
          subst he
          simp at h
        have hd : (if n ≠ "" then n else p) = n := if_pos hn
        simp only [vcardBlock, String.data_append, hd, List.mem_append]
        tauto
    exact utf8_list_length_gt (vcardBlock p t n).data c hc hge

/-- C4: Base64-decoding the returned `payload_base64` yields exactly the
UTF-8 encoding of the returned payload, whose byte length is the
reported `size_bytes`. -/
theorem C4_base64_roundtrip : ∀ p t n : String,
    b64decode (generate_ndef_record p t n).payload_base64.data =
      some (utf8Encode (generate_ndef_record p t n).payload) ∧
    (utf8Encode (generate_ndef_record p t n).payload).length =
      (generate_ndef_record p t n).size_bytes := by
  intro p t n
  constructor
  · rw [generate_b64, generate_payload_strip]
    have h : ∀ l : List Char, (String.mk l).data = l := fun l => rfl
    rw [h]
    exact b64decode_b64encode _ (utf8Encode_bytes_lt _)
  · rw [generate_size, generate_payload_strip]

/-- When the rendered payload is not over the limit, `create_contact`
succeeds. -/
theorem create_ok_of_not_large (contact_id : String) (now : Nat)
    (contact : ContactIn) (store : List Doc)
    (hnot : ¬ 504 < (generate_ndef_record contact.phone_number contact.text
      (pyOrEmpty contact.name)).size_bytes) :
    ∃ resp, (create_contact contact_id now contact store).2 = .ok resp := by
  simp only [create_contact]
  rw [if_neg hnot]
  exact ⟨_, rfl⟩

/-- When the id exists and the rendered payload is not over the limit,
`update_contact` succeeds. -/
theorem update_ok_of_not_large (contact_id : String) (now : Nat)
    (contact : ContactIn) (store : List Doc)
    (hnot : ¬ 504 < (generate_ndef_record contact.phone_number contact.text
      (pyOrEmpty contact.name)).size_bytes)
    (hex : ∃ d ∈ store, d.id = contact_id) :
    ∃ resp, (update_contact contact_id now contact store).2 = .ok resp := by
  obtain ⟨d, hd, hid⟩ := hex
  have hsome : (store.find? (fun x => x.id == contact_id)).isSome := by
    rw [List.find?_isSome]
    exact ⟨d, hd, by simp [hid]⟩
  obtain ⟨d0, hfind⟩ := Option.isSome_iff_exists.mp hsome
  obtain ⟨pre, post, hstore, hpre, hpd⟩ := find?_decomp _ _ _ hfind
  simp only [update_contact, hfind]
  rw [if_neg hnot]
  subst hstore
  rw [updateFirst_append _ _ pre post d0 hpre hpd]
  have hpd2 : (fun d => d.id == contact_id)
      ({ d0 with
          phone_number := contact.phone_number
          text := contact.text
          name := pyOrEmpty contact.name
          updated_at := now } : Doc) = true := hpd
  rw [find?_append_first _ pre post _ hpre hpd2]
  exact ⟨_, rfl⟩

/-- C2: a rendered payload over 504 UTF-8 bytes makes both `create_contact`
and `update_contact` (on an existing id) fail with a 400 size-limit error
leaving the store untouched, while a payload of exactly 504 bytes is
accepted by both. -/
theorem C2_size_limit (contact_id : String) (now : Nat) (contact : ContactIn)
    (store : List Doc) :
    (504 < (generate_ndef_record contact.phone_number contact.text
        (pyOrEmpty contact.name)).size_bytes →
      create_contact contact_id now contact store =
        (store, .error ⟨400, "Data too large for NFC 215 tag. Size: " ++
          toString (generate_ndef_record contact.phone_number contact.text
            (pyOrEmpty contact.name)).size_bytes ++ " bytes (max: 504 bytes)"⟩) ∧
      ((∃ d ∈ store, d.id = contact_id) →
        update_contact contact_id now contact store =
          (store, .error ⟨400, "Data too large for NFC 215 tag. Size: " ++
            toString (generate_ndef_record contact.phone_number contact.text
              (pyOrEmpty contact.name)).size_bytes ++ " bytes (max: 504 bytes)"⟩))) ∧
    ((generate_ndef_record contact.phone_number contact.text
        (pyOrEmpty contact.name)).size_bytes = 504 →
      (∃ resp, (create_contact contact_id now contact store).2 = .ok resp) ∧
      ((∃ d ∈ store, d.id = contact_id) →
        ∃ resp, (update_contact contact_id now contact store).2 = .ok resp)) := by
  constructor
  · intro hgt
    constructor
    · simp only [create_contact]
      rw [if_pos hgt]
    · rintro ⟨d, hd, hid⟩
      have hsome : (store.find? (fun x => x.id == contact_id)).isSome := by
        rw [List.find?_isSome]
        exact ⟨d, hd, by simp [hid]⟩
      obtain ⟨d0, hfind⟩ := Option.isSome_iff_exists.mp hsome
      simp only [update_contact, hfind]
      rw [if_pos hgt]
  · intro heq
    have hnot : ¬ 504 < (generate_ndef_record contact.phone_number contact.text
        (pyOrEmpty contact.name)).size_bytes := by omega
    exact ⟨create_ok_of_not_large contact_id now contact store hnot,
           update_ok_of_not_large contact_id now contact store hnot⟩

/-- C6: a successful update replaces exactly the three editable fields and
`updated_at` on the matched document, keeping its `id` and `created_at`
and every other stored document unchanged. -/
theorem C6_update_frame (contact_id : String) (now : Nat) (contact : ContactIn)
    (store : List Doc) (d0 : Doc)
    (hfind : store.find? (fun d => d.id == contact_id) = some d0)
    (hsize : (generate_ndef_record contact.phone_number contact.text
      (pyOrEmpty contact.name)).size_bytes ≤ 504) :
    ∃ pre post,
      store = pre ++ d0 :: post ∧
      (∀ d ∈ pre, d.id ≠ contact_id) ∧
      update_contact contact_id now contact store =
        (pre ++ { id := d0.id
                  phone_number := contact.phone_number
                  text := contact.text
                  name := pyOrEmpty contact.name
                  created_at := d0.created_at
                  updated_at := now } :: post,
         .ok { id := contact_id
               phone_number := contact.phone_number
               text := contact.text
               name := pyOrEmpty contact.name
               created_at := d0.created_at
               updated_at := now
               ndef_data := (generate_ndef_record contact.phone_number
                 contact.text (pyOrEmpty contact.name)).payload_base64
               data_size := (generate_ndef_record contact.phone_number
                 contact.text (pyOrEmpty contact.name)).size_bytes }) := by
  have hnot : ¬ 504 < (generate_ndef_record contact.phone_number contact.text
      (pyOrEmpty contact.name)).size_bytes := by omega
  obtain ⟨pre, post, hstore, hpre, hpd⟩ := find?_decomp _ _ _ hfind
  refine ⟨pre, post, hstore, fun d hd => ?_, ?_⟩
  · have hb := hpre d hd
    simpa using hb
  · simp only [update_contact, hfind]
    rw [if_neg hnot]
    subst hstore
    rw [updateFirst_append _ _ pre post d0 hpre hpd]
    have hpd2 : (fun d => d.id == contact_id)
        ({ d0 with
            phone_number := contact.phone_number
            text := contact.text
            name := pyOrEmpty contact.name
            updated_at := now } : Doc) = true := hpd
    rw [find?_append_first _ pre post _ hpre hpd2]

/-- C7: updating an identifier not present in the store yields a 404
error with the store unchanged. -/
theorem C7_update_not_found (contact_id : String) (now : Nat)
    (contact : ContactIn) (store : List Doc)
    (h : ∀ d ∈ store, d.id ≠ contact_id) :
    update_contact contact_id now contact store =
      (store, .error ⟨404, "Contact not found"⟩) := by
  have hfind : store.find? (fun d => d.id == contact_id) = none :=
    List.find?_eq_none.mpr (fun x hx => by simp [h x hx])
  simp [update_contact, hfind]

/-- C5: the read paths never re-validate the 504-byte limit: every stored
document (whatever its rendered size) appears in `get_contacts` with its
rendered payload and byte size, and `get_contact_ndef` on a found document
always returns the rendered record. -/
theorem C5_reads_never_revalidate (store : List Doc) (contact_id : String)
    (d0 : Doc) :
    (∀ d ∈ store,
      ({ id := d.id
         phone_number := d.phone_number
         text := d.text
         name := d.name
         created_at := d.created_at
         updated_at := d.updated_at
         ndef_data := (generate_ndef_record d.phone_number d.text d.name).payload_base64
         data_size := (generate_ndef_record d.phone_number d.text d.name).size_bytes } :
        ContactResponse) ∈ get_contacts store) ∧
    (store.find? (fun x => x.id == contact_id) = some d0 →
      get_contact_ndef contact_id store =
        .ok { contact_id := contact_id
              ndef_record := generate_ndef_record d0.phone_number d0.text d0.name
              instructions :=
                { nfc_215_compatible := decide
                    ((generate_ndef_record d0.phone_number d0.text d0.name).size_bytes ≤ 504)
                  recommended_apps :=
                    ["NFC Tools (Android/iOS)", "TagWriter by NXP (Android/iOS)",
                     "NFC TagInfo (Android)"]
                  usage := "Copy the payload data and use an NFC writing app to write to your NFC 215 tag" } }) := by
  constructor
  · intro d hd
    have hmem : d ∈ store.mergeSort (fun a b => b.created_at ≤ a.created_at) :=
      (List.mergeSort_perm store _).mem_iff.mpr hd
    exact List.mem_map.mpr ⟨d, hmem, rfl⟩
  · intro hfind
    simp only [get_contact_ndef, hfind]

/-- C8: deleting an unknown id yields 404; deleting a present id (ids
being unique) removes exactly that document and a second delete of the
same id yields 404. -/
theorem C8_delete_semantics (contact_id : String) (store : List Doc) :
    ((∀ d ∈ store, d.id ≠ contact_id) →
      delete_contact contact_id store =
        (store, .error ⟨404, "Contact not found"⟩)) ∧
    (∀ d0 ∈ store, d0.id = contact_id →
      store.Pairwise (fun a b => a.id ≠ b.id) →
      ∃ pre post,
        store = pre ++ d0 :: post ∧
        delete_contact contact_id store =
          (pre ++ post, .ok "Contact deleted successfully") ∧
        delete_contact contact_id (pre ++ post) =
          (pre ++ post, .error ⟨404, "Contact not found"⟩)) := by
  constructor
  · intro h
    have hall : ∀ x ∈ store, (fun d => d.id == contact_id) x = false :=
      fun x hx => by simp [h x hx]
    simp [delete_contact, deleteOne_of_none _ _ hall]
  · intro d0 hd0 hid hpw
    obtain ⟨pre, post, rfl⟩ := List.append_of_mem hd0
    have hpairs := List.pairwise_append.mp hpw
    have hpre : ∀ x ∈ pre, (fun d => d.id == contact_id) x = false := by
      intro x hx
      have hne : x.id ≠ d0.id := hpairs.2.2 x hx d0 (by simp)
      rw [hid] at hne
      simp [hne]
    have hpd : (fun d => d.id == contact_id) d0 = true := by simp [hid]
    have hpost : ∀ x ∈ post, x.id ≠ contact_id := by
      intro x hx
      have hcons := (List.pairwise_cons.mp hpairs.2.1).1 x hx
      rw [hid] at hcons
      exact fun he => hcons he.symm
    refine ⟨pre, post, rfl, ?_, ?_⟩
    · simp [delete_contact, deleteOne_append _ pre post d0 hpre hpd]
    · have hall2 : ∀ x ∈ pre ++ post, (fun d => d.id == contact_id) x = false := by
        intro x hx
        rcases List.mem_append.mp hx with hx | hx
        · exact hpre x hx
        · simp [hpost x hx]
      simp [delete_contact, deleteOne_of_none _ _ hall2]

/-- C10: `get_contact_ndef` reports `nfc_215_compatible` exactly when the
rendered size is at most 504, and returns the full rendered NDEF record
(with its fixed `text/vcard` type) in either case. -/
theorem C10_ndef_compat_flag (contact_id : String) (store : List Doc)
    (d0 : Doc)
    (hfind : store.find? (fun x => x.id == contact_id) = some d0) :
    ∃ resp, get_contact_ndef contact_id store = .ok resp ∧
      (resp.instructions.nfc_215_compatible = true ↔
        (generate_ndef_record d0.phone_number d0.text d0.name).size_bytes ≤ 504) ∧
      resp.ndef_record = generate_ndef_record d0.phone_number d0.text d0.name ∧
      resp.contact_id = contact_id ∧
      resp.ndef_record.type = "text/vcard" := by
  refine ⟨{ contact_id := contact_id
            ndef_record := generate_ndef_record d0.phone_number d0.text d0.name
            instructions :=
              { nfc_215_compatible := decide
                  ((generate_ndef_record d0.phone_number d0.text d0.name).size_bytes ≤ 504)
                recommended_apps :=
                  ["NFC Tools (Android/iOS)", "TagWriter by NXP (Android/iOS)",
                   "NFC TagInfo (Android)"]
                usage := "Copy the payload data and use an NFC writing app to write to your NFC 215 tag" } },
    ?_, ?_, rfl, rfl, generate_type _ _ _⟩
  · simp only [get_contact_ndef, hfind]
  · simp

/-- C9: for a field-validated contact made only of ASCII characters the
rendered payload is at most 218 UTF-8 bytes, so the 400 size-limit branch
of `create_contact` and `update_contact` can never fire: the rejection is
reachable only with multi-byte characters. -/
theorem C9_ascii_limit_unreachable (contact : ContactIn)
    (hvalid : ContactValid contact)
    (hphone : ∀ c ∈ contact.phone_number.data, c.toNat < 128)
    (htext : ∀ c ∈ contact.text.data, c.toNat < 128)
    (hname : ∀ c ∈ (pyOrEmpty contact.name).data, c.toNat < 128) :
    (generate_ndef_record contact.phone_number contact.text
      (pyOrEmpty contact.name)).size_bytes ≤ 218 ∧
    ∀ contact_id now store,
      (∃ resp, (create_contact contact_id now contact store).2 = .ok resp) ∧
      ((∃ d ∈ store, d.id = contact_id) →
        ∃ resp, (update_contact contact_id now contact store).2 = .ok resp) := by
  obtain ⟨hpmin, hpmax, htmax, hnmax⟩ := hvalid
  have hnlen : (pyOrEmpty contact.name).length ≤ 50 := by
    cases hn : contact.name with
    | none => simp [pyOrEmpty]
    | some s =>
      have hs := hnmax s hn
      simp only [pyOrEmpty]
      split <;> simp [hs]
  have hD_ascii : ∀ c ∈ (if pyOrEmpty contact.name ≠ "" then pyOrEmpty contact.name
      else contact.phone_number).data, c.toNat < 128 := by
    split
    · exact hname
    · exact hphone
  have hD_len : (if pyOrEmpty contact.name ≠ "" then pyOrEmpty contact.name
      else contact.phone_number).length ≤ 50 := by
    split
    · exact hnlen
    · omega
  have hsize : (generate_ndef_record contact.phone_number contact.text
      (pyOrEmpty contact.name)).size_bytes ≤ 218 := by
    rw [generate_size, pyStrip_vcardBlock]
    unfold vcardBlock
    rw [utf8Encode_append, utf8Encode_append, utf8Encode_append,
      utf8Encode_append, utf8Encode_append, utf8Encode_append]
    simp only [List.length_append]
    rw [utf8Encode_length_ascii _ (by decide),
      utf8Encode_length_ascii _ hD_ascii,
      utf8Encode_length_ascii _ (by decide),
      utf8Encode_length_ascii _ hphone,
      utf8Encode_length_ascii _ (by decide),
      utf8Encode_length_ascii _ htext,
      utf8Encode_length_ascii _ (by decide)]
    have e1 : ("BEGIN:VCARD\nVERSION:3.0\nFN:" : String).length = 27 := rfl
    have e2 : ("\nTEL:" : String).length = 5 := rfl
    have e3 : ("\nNOTE:" : String).length = 6 := rfl
    have e4 : ("\nEND:VCARD" : String).length = 10 := rfl
    omega
  refine ⟨hsize, fun contact_id now store => ?_⟩
  have hnot : ¬ 504 < (generate_ndef_record contact.phone_number contact.text
      (pyOrEmpty contact.name)).size_bytes := by omega
  exact ⟨create_ok_of_not_large contact_id now contact store hnot,
         update_ok_of_not_large contact_id now contact store hnot⟩

/-! ### Concrete fixtures for the witnesses -/

/-- A small stored contact (rendered payload well under 504 bytes). -/
def demoDoc : Doc :=
  { id := "id-1", phone_number := "+49 123 456789", text := "Test"
    name := "Test Kontakt", created_at := 5, updated_at := 5 }

/-- A stored contact whose rendered payload exceeds 504 bytes. -/
def bigDoc : Doc :=
  { id := "id-big", phone_number := "1", text := String.mk (List.replicate 600 'a')
    name := "", created_at := 3, updated_at := 3 }

/-- A valid ASCII contact request. -/
def asciiContact : ContactIn :=
  { phone_number := "+49 123 456789", text := "Test", name := some "Test Kontakt" }

/-- A contact whose rendered payload is 668 UTF-8 bytes (over the limit). -/
def contact668 : ContactIn :=
  { phone_number := "12345678901234567890"
    text := String.mk (List.replicate 100 '😀')
    name := some (String.mk (List.replicate 50 '😀')) }

/-- A contact whose rendered payload is exactly 504 UTF-8 bytes. -/
def contact504 : ContactIn :=
  { phone_number := "12345678901234567890"
    text := String.mk (List.replicate 84 '😀')
    name := some (String.mk (List.replicate 50 'ü')) }

/-! ### Witnesses -/

set_option maxRecDepth 40000 in
/-- Witness for C2 at concrete inputs: the 668-byte contact is rejected
with 400 by create (empty store) and update (existing id), and the
504-byte contact is accepted by create. -/
theorem C2_size_limit_witness :
    504 < (generate_ndef_record contact668.phone_number contact668.text
      (pyOrEmpty contact668.name)).size_bytes ∧
    create_contact "new-id" 0 contact668 [] =
      ([], .error ⟨400, "Data too large for NFC 215 tag. Size: " ++
        toString (generate_ndef_record contact668.phone_number contact668.text
          (pyOrEmpty contact668.name)).size_bytes ++ " bytes (max: 504 bytes)"⟩) ∧
    update_contact "id-1" 0 contact668 [demoDoc] =
      ([demoDoc], .error ⟨400, "Data too large for NFC 215 tag. Size: " ++
        toString (generate_ndef_record contact668.phone_number contact668.text
          (pyOrEmpty contact668.name)).size_bytes ++ " bytes (max: 504 bytes)"⟩) ∧
    (generate_ndef_record contact504.phone_number contact504.text
      (pyOrEmpty contact504.name)).size_bytes = 504 ∧
    (∃ resp, (create_contact "new-id" 0 contact504 []).2 = .ok resp) := by
  have h668 : 504 < (generate_ndef_record contact668.phone_number contact668.text
      (pyOrEmpty contact668.name)).size_bytes := by decide
  have h504 : (generate_ndef_record contact504.phone_number contact504.text
      (pyOrEmpty contact504.name)).size_bytes = 504 := by decide
  refine ⟨h668, ((C2_size_limit "new-id" 0 contact668 []).1 h668).1,
    ((C2_size_limit "id-1" 0 contact668 [demoDoc]).1 h668).2
      ⟨demoDoc, by simp, rfl⟩,
    h504, ((C2_size_limit "new-id" 0 contact504 []).2 h504).1⟩

/-- Witness for C3 at the documented multi-byte inputs. -/
theorem C3_size_witness :
    (generate_ndef_record "+49" "Größe" "Müller").payload.length <
      (generate_ndef_record "+49" "Größe" "Müller").size_bytes :=
  C3_size_is_utf8_byte_length.2 "+49" "Größe" "Müller"
    ⟨'ü', Or.inr (Or.inr (by decide)), by decide⟩

set_option maxRecDepth 40000 in
/-- Witness for C5: a stored contact whose payload exceeds 504 bytes is
still listed and still served by the NDEF read. -/
theorem C5_reads_witness :
    504 < (generate_ndef_record bigDoc.phone_number bigDoc.text bigDoc.name).size_bytes ∧
    (∃ r ∈ get_contacts [bigDoc],
      r.data_size = (generate_ndef_record bigDoc.phone_number bigDoc.text
        bigDoc.name).size_bytes) ∧
    (∃ resp, get_contact_ndef "id-big" [bigDoc] = .ok resp) := by
  refine ⟨by decide,
    ⟨_, (C5_reads_never_revalidate [bigDoc] "id-big" bigDoc).1 bigDoc (by simp), rfl⟩,
    ⟨_, (C5_reads_never_revalidate [bigDoc] "id-big" bigDoc).2 (by decide)⟩⟩

/-- Witness for C6 at a concrete store and update. -/
theorem C6_update_frame_witness :
    ∃ pre post,
      [demoDoc] = pre ++ demoDoc :: post ∧
      (∀ d ∈ pre, d.id ≠ "id-1") ∧
      update_contact "id-1" 9 asciiContact [demoDoc] =
        (pre ++ { id := demoDoc.id
                  phone_number := asciiContact.phone_number
                  text := asciiContact.text
                  name := pyOrEmpty asciiContact.name
                  created_at := demoDoc.created_at
                  updated_at := 9 } :: post,
         .ok { id := "id-1"
               phone_number := asciiContact.phone_number
               text := asciiContact.text
               name := pyOrEmpty asciiContact.name
               created_at := demoDoc.created_at
               updated_at := 9
               ndef_data := (generate_ndef_record asciiContact.phone_number
                 asciiContact.text (pyOrEmpty asciiContact.name)).payload_base64
               data_size := (generate_ndef_record asciiContact.phone_number
                 asciiContact.text (pyOrEmpty asciiContact.name)).size_bytes }) :=
  C6_update_frame "id-1" 9 asciiContact [demoDoc] demoDoc (by decide) (by decide)

/-- Witness for C7: updating a missing id on a concrete store. -/
theorem C7_update_not_found_witness :
    update_contact "missing" 0 asciiContact [demoDoc] =
      ([demoDoc], .error ⟨404, "Contact not found"⟩) :=
  C7_update_not_found "missing" 0 asciiContact [demoDoc] (by decide)

/-- Witness for C8: concrete delete of a missing id, then
delete-then-delete of a present id. -/
theorem C8_delete_witness :
    delete_contact "missing" [demoDoc] =
      ([demoDoc], .error ⟨404, "Contact not found"⟩) ∧
    (∃ pre post,
      [demoDoc] = pre ++ demoDoc :: post ∧
      delete_contact "id-1" [demoDoc] =
        (pre ++ post, .ok "Contact deleted successfully") ∧
      delete_contact "id-1" (pre ++ post) =
        (pre ++ post, .error ⟨404, "Contact not found"⟩)) :=
  ⟨(C8_delete_semantics "missing" [demoDoc]).1 (by decide),
   (C8_delete_semantics "id-1" [demoDoc]).2 demoDoc (by simp) (by decide) (by simp)⟩

/-- Witness for C9 at the valid ASCII contact. -/
theorem C9_ascii_witness :
    (generate_ndef_record asciiContact.phone_number asciiContact.text
      (pyOrEmpty asciiContact.name)).size_bytes ≤ 218 ∧
    (∃ resp, (create_contact "new-id" 0 asciiContact []).2 = .ok resp) := by
  have hvalid : ContactValid asciiContact := by
    refine ⟨by decide, by decide, by decide, ?_⟩
    intro s hs
    simp only [asciiContact, Option.some.injEq] at hs
    subst hs
    decide
  have h := C9_ascii_limit_unreachable asciiContact hvalid
    (by decide) (by decide) (by decide)
  exact ⟨h.1, (h.2 "new-id" 0 []).1⟩

/-- Witness for C10 at a concrete store. -/
theorem C10_ndef_compat_flag_witness :
    ∃ resp, get_contact_ndef "id-1" [demoDoc] = .ok resp ∧
      (resp.instructions.nfc_215_compatible = true ↔
        (generate_ndef_record demoDoc.phone_number demoDoc.text
          demoDoc.name).size_bytes ≤ 504) ∧
      resp.ndef_record = generate_ndef_record demoDoc.phone_number demoDoc.text
        demoDoc.name ∧
      resp.contact_id = "id-1" ∧
      resp.ndef_record.type = "text/vcard" :=
  C10_ndef_compat_flag "id-1" [demoDoc] demoDoc (by decide)

end NfcServer
